import Mathlib

/-!
Verification of the CattleNet ingestion pipeline, `backend/app.py`.

The Python source is shallowly embedded.  Python floats are modelled as exact
rationals, Python sets as lists used up to membership, Python dicts as
association lists that preserve key insertion order, and
`collections.deque(maxlen=n)` as a list with a bounded append.  Randomness
(`random.uniform`, `random.random`) is modelled by explicit parameters, and the
wall clock (`datetime.now()` in IST) is passed in explicitly as a calendar day
number, an hour, and the two string renderings the source computes.  The
MongoDB adapter is an external collaborator; it is modelled in its
disconnected path, which leaves the pipeline state untouched.
-/

namespace CattleNet

/-- Rounds a rational to the nearest integer, halves to even, which is the
behaviour of Python's built-in `round`. -/
def pyRoundHalfEven (x : ℚ) : ℤ :=
  let n := ⌊x⌋
  let f := x - n
  if f < 1 / 2 then n
  else if 1 / 2 < f then n + 1
  else if n % 2 = 0 then n else n + 1

/-- Python's `round(x, 2)`: round to two decimal places, halves to even. -/
def pyRound2 (x : ℚ) : ℚ := (pyRoundHalfEven (x * 100) : ℚ) / 100

/-- Threshold constant `ACTIVITY_THRESHOLD_LOW` from `app.py` line 108. -/
def ACTIVITY_THRESHOLD_LOW : ℚ := 200

/-- Threshold constant `ACTIVITY_THRESHOLD_MED` from `app.py` line 109. -/
def ACTIVITY_THRESHOLD_MED : ℚ := 400

/-- Threshold constant `ACTIVITY_THRESHOLD_HIGH` from `app.py` line 110. -/
def ACTIVITY_THRESHOLD_HIGH : ℚ := 600

/-- Entry `acc_x` of the `FEATURE_IMPORTANCE` dict, `app.py` line 114. -/
def FEATURE_IMPORTANCE_acc_x : ℚ := 0.35

/-- Entry `acc_y` of the `FEATURE_IMPORTANCE` dict, `app.py` line 115. -/
def FEATURE_IMPORTANCE_acc_y : ℚ := 0.20

/-- Entry `acc_z` of the `FEATURE_IMPORTANCE` dict, `app.py` line 116. -/
def FEATURE_IMPORTANCE_acc_z : ℚ := 0.15

/-- Entry `gyro_x` of the `FEATURE_IMPORTANCE` dict, `app.py` line 117. -/
def FEATURE_IMPORTANCE_gyro_x : ℚ := 0.12

/-- Entry `gyro_y` of the `FEATURE_IMPORTANCE` dict, `app.py` line 118. -/
def FEATURE_IMPORTANCE_gyro_y : ℚ := 0.10

/-- Entry `gyro_z` of the `FEATURE_IMPORTANCE` dict, `app.py` line 119. -/
def FEATURE_IMPORTANCE_gyro_z : ℚ := 0.08

/-- Feature vector handed to `detect_anomaly`: the list
`[acc_x, acc_y, acc_z, gyro_x, gyro_y, gyro_z]` built by `process_sensor_data`. -/
structure Features where
  acc_x : ℚ
  acc_y : ℚ
  acc_z : ℚ
  gyro_x : ℚ
  gyro_y : ℚ
  gyro_z : ℚ
deriving DecidableEq

/-- Weighted activity magnitude computed at `app.py` lines 136-143, before the
random factor is applied. -/
def activity_level_raw (f : Features) : ℚ :=
  |f.acc_x| * FEATURE_IMPORTANCE_acc_x +
  |f.acc_y| * FEATURE_IMPORTANCE_acc_y +
  |f.acc_z| * FEATURE_IMPORTANCE_acc_z +
  |f.gyro_x| * FEATURE_IMPORTANCE_gyro_x * 10 +
  |f.gyro_y| * FEATURE_IMPORTANCE_gyro_y * 10 +
  |f.gyro_z| * FEATURE_IMPORTANCE_gyro_z * 10

/-- Per-feature weighted contributions in the insertion order of the
`feature_values` dict of `detect_anomaly`, `app.py` lines 166-173. -/
def feature_values (f : Features) : List (String × ℚ) :=
  [("acc_x", |f.acc_x| * FEATURE_IMPORTANCE_acc_x),
   ("acc_y", |f.acc_y| * FEATURE_IMPORTANCE_acc_y),
   ("acc_z", |f.acc_z| * FEATURE_IMPORTANCE_acc_z),
   ("gyro_x", |f.gyro_x| * FEATURE_IMPORTANCE_gyro_x * 10),
   ("gyro_y", |f.gyro_y| * FEATURE_IMPORTANCE_gyro_y * 10),
   ("gyro_z", |f.gyro_z| * FEATURE_IMPORTANCE_gyro_z * 10)]

/-- Inserts a pair into a list ordered by descending value, placing it after
every strictly larger element and before equal or smaller ones.  Folded over
the input this reproduces Python's stable `sorted(..., reverse=True)` keyed on
the value component, `app.py` line 175. -/
def insertByValueDesc (a : String × ℚ) : List (String × ℚ) → List (String × ℚ)
  | [] => [a]
  | b :: l => if b.2 ≤ a.2 then a :: b :: l else b :: insertByValueDesc a l

/-- Stable descending sort by value, modelling
`sorted(feature_values.items(), key=lambda x: x[1], reverse=True)`. -/
def sortByValueDesc : List (String × ℚ) → List (String × ℚ)
  | [] => []
  | a :: l => insertByValueDesc a (sortByValueDesc l)

/-- Result dict of `detect_anomaly`, `app.py` lines 178-183. -/
structure AnomalyResult where
  prediction : String
  confidence : ℚ
  important_features : List String
  activity_level : ℚ
deriving DecidableEq

/-- Branch structure of `detect_anomaly` at `app.py` lines 150-163, mapping
the jittered activity level to the prediction string and the pre-rounding
confidence.  `mid_band_coin` stands for `random.random() < 0.3` and the two
`mid_band_conf` arguments for the middle band's `random.uniform` draws. -/
def anomaly_band (activity_level : ℚ) (mid_band_coin : Bool)
    (mid_band_conf_anomaly mid_band_conf_normal : ℚ) : String × ℚ :=
  if ACTIVITY_THRESHOLD_HIGH < activity_level then
    ("Anomaly", min 95 (70 + (activity_level - ACTIVITY_THRESHOLD_HIGH) / 10))
  else if ACTIVITY_THRESHOLD_MED < activity_level then
    if mid_band_coin then ("Anomaly", mid_band_conf_anomaly)
    else ("Normal", mid_band_conf_normal)
  else
    ("Normal", min 98 (80 + (ACTIVITY_THRESHOLD_LOW - activity_level) / 20))

/-- Shallow embedding of `detect_anomaly`, `app.py` lines 122-183.  The random
factor drawn by `random.uniform(0.8, 1.2)` at line 146 is an explicit
parameter, as are the middle band's random draws. -/
def detect_anomaly (f : Features) (random_factor : ℚ) (mid_band_coin : Bool)
    (mid_band_conf_anomaly mid_band_conf_normal : ℚ) : AnomalyResult :=
  { prediction :=
      (anomaly_band (activity_level_raw f * random_factor) mid_band_coin
        mid_band_conf_anomaly mid_band_conf_normal).1
    confidence :=
      pyRound2 ((anomaly_band (activity_level_raw f * random_factor) mid_band_coin
        mid_band_conf_anomaly mid_band_conf_normal).2)
    important_features := ((sortByValueDesc (feature_values f)).take 3).map Prod.fst
    activity_level := pyRound2 (activity_level_raw f * random_factor) }

/-- Standardized gate record built by `process_gate_data`, `app.py` lines
635-642. -/
structure GateData where
  timestamp : String
  rfid_tag : String
  weight : ℚ
  gate_status : String
  direction : String
  cattle_id : String
deriving DecidableEq

/-- Registry entry of `cattle_registry`, `app.py` lines 646-655.  The weight
history pairs each weight with its timestamp as the nested dicts of line
661-664 do. -/
structure CattleProfile where
  rfid_tag : String
  latest_weight : ℚ
  weight_history : List (ℚ × String)
  first_seen : String
  last_seen : String
  total_entries : ℕ
  total_exits : ℕ
deriving DecidableEq

/-- Normalized per-cattle activity entry of `process_feed_monitor_data`,
`app.py` lines 488-494 and 511-519. -/
structure FeedActivity where
  cattle_id : String
  rfid : String
  feed_consumed : ℚ
  water_present : Bool
  timestamp : String
deriving DecidableEq

/-- Standardized feed record of `process_feed_monitor_data`, `app.py` lines
497-504 and 521-528. -/
structure FeedData where
  timestamp : String
  total_feed : ℚ
  total_water : ℚ
  avg_feed_per_cattle : ℚ
  avg_water_per_cattle : ℚ
  recent_activity : List FeedActivity
deriving DecidableEq

/-- Real-time fan-out messages sent with `socketio.emit` by the gate and feed
pipelines (`gate_update` at `app.py` line 687 carries the registry entry of
the scanned tag; `feed_monitor_update` at line 553). -/
inductive Emission where
  | gate_update (data : GateData) (registry : Option CattleProfile)
  | feed_monitor_update (data : FeedData)
deriving DecidableEq

/-- Mutable module-level state of `app.py` lines 78-103 that the gate and
feed pipelines touch, together with the stream of fan-out emissions.  Python
sets are lists used up to membership, dicts are association lists in key
insertion order, and dates are IST calendar day numbers. -/
structure PipelineState where
  gate_data_buffer : List GateData := []
  latest_gate_data : Option GateData := none
  feed_monitor_buffer : List FeedData := []
  latest_feed_data : Option FeedData := none
  cattle_registry : List (String × CattleProfile) := []
  unique_rfid_in : List String := []
  unique_rfid_out : List String := []
  last_date_in : Option ℤ := none
  last_date_out : Option ℤ := none
  processed_messages : List (String × String × String) := []
  emissions : List Emission := []
deriving DecidableEq

/-- The state at process start: empty buffers, empty registry, empty session
sets, `None` session dates, `app.py` lines 78-103. -/
def initState : PipelineState := {}

/-- An entry of the `recent_activity` array of an aggregated feed payload,
with the alternate key spellings read at `app.py` lines 512-519. -/
structure ActDoc where
  cattle_id : Option String := none
  rfid : Option String := none
  rfid_tag : Option String := none
  feed_consumed : Option ℚ := none
  water_present : Option Bool := none
deriving DecidableEq

/-- A parsed JSON payload, restricted to the keys the gate and feed pipelines
read.  A field is `none` when the key is absent. -/
structure Doc where
  status : Option String := none
  timestamp : Option String := none
  rfidTag : Option String := none
  rfid_tag : Option String := none
  rfid : Option String := none
  weight : Option ℚ := none
  loadCell : Option ℚ := none
  load_cell : Option ℚ := none
  gateStatus : Option String := none
  gate_status : Option String := none
  cattleID : Option String := none
  cattle_id : Option String := none
  cattleName : Option String := none
  feedConsumed : Option ℚ := none
  feed_consumed : Option ℚ := none
  waterStatus : Option Bool := none
  water_present : Option Bool := none
  total_feed : Option ℚ := none
  total_water : Option ℚ := none
  avg_feed_per_cattle : Option ℚ := none
  avg_water_per_cattle : Option ℚ := none
  recent_activity : Option (List ActDoc) := none
deriving DecidableEq

/-- Dict lookup on an insertion-ordered association list. -/
def lookupA {β : Type} : List (String × β) → String → Option β
  | [], _ => none
  | (k2, v) :: t, k => if k2 = k then some v else lookupA t k

/-- Dict assignment on an insertion-ordered association list: replaces in
place, or appends a new key at the end, as Python dict assignment does. -/
def setEntry {β : Type} : List (String × β) → String → β → List (String × β)
  | [], k, v => [(k, v)]
  | (k2, v2) :: t, k, v =>
      if k2 = k then (k2, v) :: t else (k2, v2) :: setEntry t k v

/-- Python `set.add` on a list used up to membership. -/
def setInsert (l : List String) (x : String) : List String :=
  if x ∈ l then l else l ++ [x]

/-- Append to a `collections.deque(maxlen=maxlen)`: once full, the oldest
(leftmost) entry is evicted. -/
def dequeAppend {α : Type} (maxlen : ℕ) (buf : List α) (x : α) : List α :=
  if maxlen ≤ buf.length then buf.tail ++ [x] else buf ++ [x]

/-- Capacity of `cattle_data_buffer`, `app.py` line 78. -/
def cattle_data_buffer_maxlen : ℕ := 100

/-- Capacity of `environmental_data_buffer`, `app.py` line 79. -/
def environmental_data_buffer_maxlen : ℕ := 50

/-- Capacity of `gate_data_buffer`, `app.py` line 80. -/
def gate_data_buffer_maxlen : ℕ := 200

/-- Capacity of `feed_monitor_buffer`, `app.py` line 81. -/
def feed_monitor_buffer_maxlen : ℕ := 100

/-- Constant `MAX_MESSAGE_HISTORY`, `app.py` line 103. -/
def MAX_MESSAGE_HISTORY : ℕ := 500

/-- Python `str.strip()`: removes leading and trailing whitespace. -/
def pyStrip (s : String) : String :=
  String.mk (((s.toList.dropWhile Char.isWhitespace).reverse.dropWhile
    Char.isWhitespace).reverse)

/-- Python `str.lower()` on the ASCII identifiers this pipeline compares. -/
def pyLower (s : String) : String := String.mk (s.toList.map Char.toLower)

/-- RFID extraction fallback chain of `process_gate_data`, `app.py` line 571. -/
def rfid_of (d : Doc) : String :=
  d.rfidTag.getD (d.rfid_tag.getD (d.rfid.getD ""))

/-- Timestamp formatting of `app.py` lines 579-589: an absent or empty
timestamp, or one the ISO-8601 parse rejects, is replaced by the processing
clock.  `parseIso` abstracts `datetime.fromisoformat` composed with
`strftime`; it returns `none` on parse failure. -/
def formatted_time_of (parseIso : String → Option String) (nowIso nowFmt : String)
    (ts : Option String) : String :=
  let t := ts.getD nowIso
  if t = "" then nowFmt else (parseIso t).getD nowFmt

/-- Weight extraction fallback chain of `process_gate_data`, `app.py` line 591. -/
def gate_weight_of (d : Doc) : ℚ :=
  d.weight.getD (d.loadCell.getD (d.load_cell.getD 0))

/-- Gate status fallback chain of `process_gate_data`, `app.py` line 592. -/
def gate_status_of (d : Doc) : String :=
  d.gateStatus.getD (d.gate_status.getD (d.status.getD "unknown"))

/-- Registry update of `process_gate_data`, `app.py` lines 644-666: on a
positive weight the entry is created or refreshed and the weight history is
appended and trimmed to the last 10 readings. -/
def gate_registry_update (reg : List (String × CattleProfile)) (rfid_tag : String)
    (weight : ℚ) (fmt : String) : List (String × CattleProfile) :=
  if rfid_tag ≠ "" ∧ pyStrip rfid_tag ≠ "" ∧ 0 < weight then
    let entry :=
      match lookupA reg rfid_tag with
      | none =>
          { rfid_tag := rfid_tag, latest_weight := weight, weight_history := [],
            first_seen := fmt, last_seen := fmt, total_entries := 0,
            total_exits := 0 : CattleProfile }
      | some p => { p with latest_weight := weight, last_seen := fmt }
    let hist := entry.weight_history ++ [(weight, fmt)]
    let entry2 :=
      { entry with weight_history := if 10 < hist.length then hist.drop 1 else hist }
    setEntry reg rfid_tag entry2
  else reg

/-- Tail of `process_gate_data` after the direction branch, `app.py` lines
635-691: build the gate record, update the registry, append to the ring
buffer, overwrite the latest snapshot, and emit the fan-out message carrying
the (updated) registry entry. -/
def gate_store_and_emit (s : PipelineState) (rfid_tag fmt : String) (weight : ℚ)
    (gate_status direction : String) : PipelineState :=
  let gd : GateData :=
    { timestamp := fmt, rfid_tag := rfid_tag, weight := weight,
      gate_status := gate_status, direction := direction, cattle_id := rfid_tag }
  let reg2 := gate_registry_update s.cattle_registry rfid_tag weight fmt
  { s with
    cattle_registry := reg2,
    gate_data_buffer := dequeAppend gate_data_buffer_maxlen s.gate_data_buffer gd,
    latest_gate_data := some gd,
    emissions := s.emissions ++ [Emission.gate_update gd (lookupA reg2 rfid_tag)] }

/-- Shallow embedding of `process_gate_data`, `app.py` lines 565-696.  The
IST clock is passed as the calendar day number `today`, the hour
`current_hour`, and the two string renderings `nowIso` / `nowFmt`.  At hours
0-4 the source evaluates `current_date - timedelta(days=1)` (line 625), but
`timedelta` is never imported (line 6 imports only `datetime`); the NameError
is raised before any state mutation and the blanket handler at lines 695-696
swallows it, so the event is dropped with the state unchanged. -/
def process_gate_data (parseIso : String → Option String) (today : ℤ)
    (current_hour : ℕ) (nowIso nowFmt : String) (d : Doc) (s : PipelineState) :
    PipelineState :=
  let rfid_tag := rfid_of d
  if rfid_tag = "" ∨ pyStrip rfid_tag = "" then s
  else
    let fmt := formatted_time_of parseIso nowIso nowFmt d.timestamp
    let weight := gate_weight_of d
    let gate_status := gate_status_of d
    if 5 ≤ current_hour ∧ current_hour < 16 then
      let s2 :=
        if s.last_date_in ≠ some today then
          { s with unique_rfid_in := [], last_date_in := some today }
        else s
      let s3 := { s2 with unique_rfid_in := setInsert s2.unique_rfid_in rfid_tag }
      gate_store_and_emit s3 rfid_tag fmt weight gate_status "in"
    else if 16 ≤ current_hour then
      let s2 :=
        if s.last_date_out ≠ some today then
          { s with unique_rfid_out := [], last_date_out := some today }
        else s
      let s3 := { s2 with unique_rfid_out := setInsert s2.unique_rfid_out rfid_tag }
      gate_store_and_emit s3 rfid_tag fmt weight gate_status "out"
    else
      s

/-- Cattle identifier fallback chain of `process_feed_monitor_data`,
`app.py` line 440. -/
def feed_cattle_id_of (d : Doc) : String :=
  d.cattleID.getD (d.cattle_id.getD (d.cattleName.getD "unknown"))

/-- Feed consumption fallback chain of `process_feed_monitor_data`,
`app.py` line 444. -/
def feed_consumed_of (d : Doc) : ℚ :=
  d.feedConsumed.getD (d.feed_consumed.getD 0)

/-- The `is_invalid_id` flag of `process_feed_monitor_data`, `app.py`
line 453. -/
def feed_is_invalid_id (d : Doc) : Bool :=
  feed_cattle_id_of d == "" ||
    ["no cattle", "none", ""].contains (pyLower (feed_cattle_id_of d))

/-- The `is_unknown_without_feed` flag of `process_feed_monitor_data`,
`app.py` line 454. -/
def feed_is_unknown_without_feed (d : Doc) : Bool :=
  ["unknown", "no_cattle_detected"].contains (pyLower (feed_cattle_id_of d)) &&
    decide (feed_consumed_of d ≤ 0)

/-- Deduplication key `(topic, timestamp, cattle_id)` of
`process_feed_monitor_data`, `app.py` line 465; the timestamp is the raw
payload value, defaulted to the processing clock's ISO rendering. -/
def feed_message_key (topic nowIso : String) (d : Doc) : String × String × String :=
  (topic, d.timestamp.getD nowIso, feed_cattle_id_of d)

/-- Tail of `process_feed_monitor_data` after a recognized format, `app.py`
lines 533-556: ring-buffer append, latest-snapshot overwrite, fan-out
emission. -/
def feed_store_and_emit (s : PipelineState) (fd : FeedData) : PipelineState :=
  { s with
    feed_monitor_buffer :=
      dequeAppend feed_monitor_buffer_maxlen s.feed_monitor_buffer fd,
    latest_feed_data := some fd,
    emissions := s.emissions ++ [Emission.feed_monitor_update fd] }

/-- Normalization of one aggregated-format activity entry, `app.py` lines
512-519. -/
def normalize_activity (nowFmt : String) (a : ActDoc) : FeedActivity :=
  { cattle_id := a.cattle_id.getD (a.rfid.getD (a.rfid_tag.getD "unknown")),
    rfid := a.rfid.getD (a.rfid_tag.getD (a.cattle_id.getD "unknown")),
    feed_consumed := a.feed_consumed.getD 0,
    water_present := a.water_present.getD false,
    timestamp := nowFmt }

/-- Feed record for a single-cattle payload (format 1), `app.py` lines
485-504. -/
def feed_format1_record (nowFmt : String) (d : Doc) : FeedData :=
  { timestamp := nowFmt, total_feed := feed_consumed_of d,
    total_water := 0, avg_feed_per_cattle := feed_consumed_of d,
    avg_water_per_cattle := 0,
    recent_activity :=
      [{ cattle_id := feed_cattle_id_of d, rfid := feed_cattle_id_of d,
         feed_consumed := feed_consumed_of d,
         water_present := d.waterStatus.getD (d.water_present.getD false),
         timestamp := nowFmt }] }

/-- Feed record for an aggregated payload (format 2), `app.py` lines
507-528. -/
def feed_format2_record (nowFmt : String) (d : Doc) : FeedData :=
  { timestamp := nowFmt, total_feed := d.total_feed.getD 0,
    total_water := d.total_water.getD 0,
    avg_feed_per_cattle := d.avg_feed_per_cattle.getD 0,
    avg_water_per_cattle := d.avg_water_per_cattle.getD 0,
    recent_activity :=
      (d.recent_activity.getD []).map (normalize_activity nowFmt) }

/-- Shallow embedding of `process_feed_monitor_data`, `app.py` lines 423-563:
status filter, identifier validity filter, deduplication with the crude
clear-and-reseed overflow policy, then one of the two recognized payload
formats; an unrecognized format returns after the dedup set was already
mutated (line 531). -/
def process_feed_monitor_data (topic nowIso nowFmt : String) (d : Doc)
    (s : PipelineState) : PipelineState :=
  if d.status = some "no_cattle_detected" then s
  else if feed_is_invalid_id d || feed_is_unknown_without_feed d then s
  else
    let message_key := feed_message_key topic nowIso d
    if message_key ∈ s.processed_messages then s
    else
      let pm := s.processed_messages ++ [message_key]
      let pm2 := if MAX_MESSAGE_HISTORY < pm.length then [message_key] else pm
      let s2 := { s with processed_messages := pm2 }
      if d.cattleID.isSome || d.cattle_id.isSome || d.cattleName.isSome then
        feed_store_and_emit s2 (feed_format1_record nowFmt d)
      else if d.total_feed.isSome || d.recent_activity.isSome then
        feed_store_and_emit s2 (feed_format2_record nowFmt d)
      else s2

/-- Substring test on character lists: Python's `in` for strings. -/
def charsContain (pat : List Char) : List Char → Bool
  | [] => pat.isEmpty
  | c :: t => pat.isPrefixOf (c :: t) || charsContain pat t

/-- Python `pat in s` on strings. -/
def strContains (s pat : String) : Bool := charsContain pat.toList s.toList

/-- Shallow embedding of the `on_message` dispatcher, `app.py` lines 207-238.
A payload that `json.loads` rejects arrives as `none` and is dropped before
any dispatch.  The sensor, environmental and health pipelines are outside
the claims under verification and are abstracted as arbitrary state
transformers passed in as parameters. -/
def on_message (parseIso : String → Option String) (today : ℤ)
    (current_hour : ℕ) (nowIso nowFmt : String)
    (process_sensor_data process_environmental_data process_health_data :
      PipelineState → Doc → String → PipelineState)
    (topic : String) (payload : Option Doc) (s : PipelineState) : PipelineState :=
  match payload with
  | none => s
  | some d =>
      if topic = "farm/environment" then process_environmental_data s d topic
      else if topic = "farm/gate" then
        process_gate_data parseIso today current_hour nowIso nowFmt d s
      else if topic = "farm/feed_monitor" then
        process_feed_monitor_data topic nowIso nowFmt d s
      else if strContains topic "farm/" || strContains topic "sensors" then
        process_sensor_data s d topic
      else if strContains topic "health" then process_health_data s d topic
      else s

/-- C3: with the random jitter factor held at 1, `detect_anomaly` computes the
magnitude m = |acc_x|·0.35 + |acc_y|·0.20 + |acc_z|·0.15 + |gyro_x|·0.12·10 +
|gyro_y|·0.10·10 + |gyro_z|·0.08·10 and bands it: m > 600 yields "Anomaly"
with confidence min(95, 70 + (m − 600)/10), and m ≤ 400 yields "Normal" with
confidence min(98, 80 + (200 − m)/20).  The returned confidence carries the
source's final `round(confidence, 2)`. -/
theorem detect_anomaly_banding (f : Features) (coin : Bool) (ca cn : ℚ) (m : ℚ)
    (hm : m = |f.acc_x| * 0.35 + |f.acc_y| * 0.20 + |f.acc_z| * 0.15 +
      |f.gyro_x| * 0.12 * 10 + |f.gyro_y| * 0.10 * 10 + |f.gyro_z| * 0.08 * 10) :
    (600 < m →
      (detect_anomaly f 1 coin ca cn).prediction = "Anomaly" ∧
      (detect_anomaly f 1 coin ca cn).confidence =
        pyRound2 (min 95 (70 + (m - 600) / 10))) ∧
    (m ≤ 400 →
      (detect_anomaly f 1 coin ca cn).prediction = "Normal" ∧
      (detect_anomaly f 1 coin ca cn).confidence =
        pyRound2 (min 98 (80 + (200 - m) / 20))) := by
  have hraw : activity_level_raw f = m := by rw [hm]; rfl
  constructor
  · intro h
    unfold detect_anomaly anomaly_band
    rw [hraw, mul_one]
    rw [if_pos (show ACTIVITY_THRESHOLD_HIGH < m from h)]
    exact ⟨rfl, rfl⟩
  · intro h
    unfold detect_anomaly anomaly_band
    rw [hraw, mul_one]
    rw [if_neg (show ¬ ACTIVITY_THRESHOLD_HIGH < m by
          unfold ACTIVITY_THRESHOLD_HIGH; intro hc; linarith),
        if_neg (show ¬ ACTIVITY_THRESHOLD_MED < m by
          unfold ACTIVITY_THRESHOLD_MED; intro hc; linarith)]
    exact ⟨rfl, rfl⟩

/-- Helper: the weighted magnitude of the feature vector (2000, 0, 0, 0, 0, 0)
is 700. -/
theorem mag_two_thousand :
    (700 : ℚ) = |(2000 : ℚ)| * 0.35 + |(0 : ℚ)| * 0.20 + |(0 : ℚ)| * 0.15 +
      |(0 : ℚ)| * 0.12 * 10 + |(0 : ℚ)| * 0.10 * 10 + |(0 : ℚ)| * 0.08 * 10 := by
  norm_num

/-- Helper: the weighted magnitude of the feature vector (0, 500, 0, 0, 0, 0)
is 100. -/
theorem mag_five_hundred :
    (100 : ℚ) = |(0 : ℚ)| * 0.35 + |(500 : ℚ)| * 0.20 + |(0 : ℚ)| * 0.15 +
      |(0 : ℚ)| * 0.12 * 10 + |(0 : ℚ)| * 0.10 * 10 + |(0 : ℚ)| * 0.08 * 10 := by
  norm_num

/-- Witness for `detect_anomaly_banding`: magnitude 700 bands to "Anomaly"
with confidence 80, magnitude 100 bands to "Normal" with confidence 85. -/
theorem detect_anomaly_banding_witness :
    (detect_anomaly ⟨2000, 0, 0, 0, 0, 0⟩ 1 false 0 0).prediction = "Anomaly" ∧
    (detect_anomaly ⟨2000, 0, 0, 0, 0, 0⟩ 1 false 0 0).confidence =
      pyRound2 (min 95 (70 + ((700 : ℚ) - 600) / 10)) ∧
    (detect_anomaly ⟨0, 500, 0, 0, 0, 0⟩ 1 false 0 0).prediction = "Normal" ∧
    (detect_anomaly ⟨0, 500, 0, 0, 0, 0⟩ 1 false 0 0).confidence =
      pyRound2 (min 98 (80 + (200 - (100 : ℚ)) / 20)) := by
  have h1 := detect_anomaly_banding ⟨2000, 0, 0, 0, 0, 0⟩ false 0 0 700 mag_two_thousand
  have h2 := detect_anomaly_banding ⟨0, 500, 0, 0, 0, 0⟩ false 0 0 100 mag_five_hundred
  exact ⟨(h1.1 (by decide)).1, (h1.1 (by decide)).2,
    (h2.2 (by decide)).1, (h2.2 (by decide)).2⟩

/-- Helper: a list is a sublist of the result of inserting one element. -/
theorem sublist_insertByValueDesc (a : String × ℚ) :
    ∀ l : List (String × ℚ), l.Sublist (insertByValueDesc a l)
  | [] => List.nil_sublist _
  | b :: l => by
      unfold insertByValueDesc
      split
      · exact List.Sublist.cons a (List.Sublist.refl _)
      · exact List.Sublist.cons₂ b (sublist_insertByValueDesc a l)

/-- Helper: inserting an element permutes consing it. -/
theorem perm_insertByValueDesc (a : String × ℚ) :
    ∀ l : List (String × ℚ), (insertByValueDesc a l).Perm (a :: l)
  | [] => List.Perm.refl _
  | b :: l => by
      unfold insertByValueDesc
      split
      · exact List.Perm.refl _
      · exact ((perm_insertByValueDesc a l).cons b).trans (List.Perm.swap a b l)

/-- Helper: the stable sort permutes its input. -/
theorem perm_sortByValueDesc :
    ∀ l : List (String × ℚ), (sortByValueDesc l).Perm l
  | [] => List.Perm.refl _
  | a :: l =>
      (perm_insertByValueDesc a (sortByValueDesc l)).trans
        ((perm_sortByValueDesc l).cons a)

/-- Helper: inserting preserves descending order by value. -/
theorem sorted_insertByValueDesc (a : String × ℚ) (l : List (String × ℚ))
    (hl : l.Pairwise (fun x y => y.2 ≤ x.2)) :
    (insertByValueDesc a l).Pairwise (fun x y => y.2 ≤ x.2) := by
  induction l with
  | nil => simp [insertByValueDesc]
  | cons b l ih =>
      rw [List.pairwise_cons] at hl
      unfold insertByValueDesc
      split
      case isTrue h =>
        refine List.Pairwise.cons ?_ (List.pairwise_cons.mpr hl)
        intro x hx
        rcases List.mem_cons.mp hx with rfl | hx2
        · exact h
        · exact le_trans (hl.1 x hx2) h
      case isFalse h =>
        refine List.Pairwise.cons ?_ (ih hl.2)
        intro x hx
        rcases List.mem_cons.mp ((perm_insertByValueDesc a l).mem_iff.mp hx)
          with rfl | hx2
        · exact le_of_not_le h
        · exact hl.1 x hx2

/-- Helper: the stable sort is descending by value. -/
theorem sorted_sortByValueDesc :
    ∀ l : List (String × ℚ), (sortByValueDesc l).Pairwise (fun x y => y.2 ≤ x.2)
  | [] => List.Pairwise.nil
  | a :: l => sorted_insertByValueDesc a _ (sorted_sortByValueDesc l)

/-- Helper: inserting `a` places it before any member whose value it ties or
exceeds. -/
theorem pair_sublist_insertByValueDesc (a b : String × ℚ) (hv : b.2 ≤ a.2) :
    ∀ l : List (String × ℚ), b ∈ l → [a, b].Sublist (insertByValueDesc a l)
  | [], hb => absurd hb (List.not_mem_nil b)
  | c :: t, hb => by
      unfold insertByValueDesc
      split
      case isTrue h =>
        exact List.Sublist.cons₂ a (List.singleton_sublist.mpr hb)
      case isFalse h =>
        rcases List.mem_cons.mp hb with rfl | hb2
        · exact absurd hv h
        · exact List.Sublist.cons c (pair_sublist_insertByValueDesc a b hv t hb2)

/-- Helper, stability of the sort: an earlier element stays before a later one
whose value it ties or exceeds. -/
theorem pair_sublist_sortByValueDesc (a b : String × ℚ) (hv : b.2 ≤ a.2) :
    ∀ l : List (String × ℚ), [a, b].Sublist l → [a, b].Sublist (sortByValueDesc l)
  | c :: t, h => by
      unfold sortByValueDesc
      cases h with
      | cons _ h2 =>
          exact (pair_sublist_sortByValueDesc a b hv t h2).trans
            (sublist_insertByValueDesc c _)
      | cons₂ _ h2 =>
          exact pair_sublist_insertByValueDesc a b hv _
            ((perm_sortByValueDesc t).mem_iff.mpr (List.singleton_sublist.mp h2))

/-- Helper: in a duplicate-free list, what comes before a member of a prefix
is also in that prefix. -/
theorem mem_take_of_pair_sublist (a b : String × ℚ) (s : List (String × ℚ)) :
    ∀ n : ℕ, [a, b].Sublist s → s.Nodup → b ∈ s.take n → a ∈ s.take n := by
  induction s with
  | nil => intro n h _ hb; simp at hb
  | cons x t ih =>
      intro n h hnd hb
      cases n with
      | zero => simp at hb
      | succ m =>
          rw [List.take_succ_cons] at hb ⊢
          rw [List.nodup_cons] at hnd
          cases h with
          | cons _ h2 =>
              rcases List.mem_cons.mp hb with rfl | hb2
              · exact absurd (h2.subset (by simp)) hnd.1
              · exact List.mem_cons_of_mem x (ih m h2 hnd.2 hb2)
          | cons₂ _ h2 =>
              exact List.mem_cons_self a _

/-- Helper: with duplicate-free keys, membership of a key in a prefix's key
list pins the pair itself into that prefix. -/
theorem mem_take_of_fst_mem (s : List (String × ℚ)) :
    ∀ (n : ℕ) (p : String × ℚ), (s.map Prod.fst).Nodup → p ∈ s →
      p.1 ∈ (s.take n).map Prod.fst → p ∈ s.take n := by
  induction s with
  | nil => intro n p _ hp _; simp at hp
  | cons x t ih =>
      intro n p hnd hp h
      cases n with
      | zero => simp at h
      | succ m =>
          rw [List.take_succ_cons] at h ⊢
          rw [List.map_cons, List.mem_cons] at h
          rw [List.map_cons, List.nodup_cons] at hnd
          rcases List.mem_cons.mp hp with rfl | hp2
          · exact List.mem_cons_self p _
          · refine List.mem_cons_of_mem x (ih m p hnd.2 hp2 ?_)
            rcases h with h1 | h2
            · exact absurd (h1 ▸ List.mem_map_of_mem Prod.fst hp2) hnd.1
            · exact h2

/-- C4 counterexample: at features (2000, 0, 0, 0, 0, 0) with the jitter draw
at 1.2, `detect_anomaly` reports `activity_level` 840, while the rounded
pre-jitter magnitude is 700 — the returned value is affected by the jitter
factor, contrary to the claim. -/
theorem detect_anomaly_activity_jitter_cex :
    (detect_anomaly ⟨2000, 0, 0, 0, 0, 0⟩ 1.2 false 0 0).activity_level = 840 ∧
    pyRound2 (activity_level_raw ⟨2000, 0, 0, 0, 0, 0⟩) = 700 ∧
    (840 : ℚ) ≠ 700 := by
  refine ⟨?_, ?_, by norm_num⟩ <;>
    norm_num [detect_anomaly, activity_level_raw, pyRound2, pyRoundHalfEven,
      FEATURE_IMPORTANCE_acc_x, FEATURE_IMPORTANCE_acc_y, FEATURE_IMPORTANCE_acc_z,
      FEATURE_IMPORTANCE_gyro_x, FEATURE_IMPORTANCE_gyro_y, FEATURE_IMPORTANCE_gyro_z]

/-- C4 (amended): for every six-feature input, `detect_anomaly` returns as
`activity_level` the jitter-multiplied weighted magnitude rounded to two
decimals, and as `important_features` exactly three feature names such that
every excluded feature's weighted contribution is at most every included
one's, with ties broken by stable input order (an earlier feature tied with a
later included one is itself included). -/
theorem detect_anomaly_features (f : Features) (r : ℚ) (coin : Bool) (ca cn : ℚ) :
    (detect_anomaly f r coin ca cn).activity_level =
      pyRound2 (activity_level_raw f * r) ∧
    (detect_anomaly f r coin ca cn).important_features.length = 3 ∧
    (∀ p ∈ feature_values f, ∀ q ∈ feature_values f,
      p.1 ∈ (detect_anomaly f r coin ca cn).important_features →
      q.1 ∉ (detect_anomaly f r coin ca cn).important_features →
      q.2 ≤ p.2) ∧
    (∀ p q : String × ℚ, [p, q].Sublist (feature_values f) → p.2 = q.2 →
      q.1 ∈ (detect_anomaly f r coin ca cn).important_features →
      p.1 ∈ (detect_anomaly f r coin ca cn).important_features) := by
  have hperm : (sortByValueDesc (feature_values f)).Perm (feature_values f) :=
    perm_sortByValueDesc _
  have himp : (detect_anomaly f r coin ca cn).important_features =
      ((sortByValueDesc (feature_values f)).take 3).map Prod.fst := rfl
  have hnames : (feature_values f).map Prod.fst =
      ["acc_x", "acc_y", "acc_z", "gyro_x", "gyro_y", "gyro_z"] := rfl
  have hndnames : ((feature_values f).map Prod.fst).Nodup := by
    rw [hnames]; decide
  have hndS : ((sortByValueDesc (feature_values f)).map Prod.fst).Nodup :=
    ((hperm.map Prod.fst).nodup_iff).mpr hndnames
  have hnd : (sortByValueDesc (feature_values f)).Nodup := hndS.of_map
  have hlen : (sortByValueDesc (feature_values f)).length = 6 := by
    rw [hperm.length_eq]; rfl
  refine ⟨rfl, ?_, ?_, ?_⟩
  · rw [himp, List.length_map, List.length_take, hlen]
    decide
  · intro p hp q hq hpin hqout
    rw [himp] at hpin hqout
    have hpS : p ∈ sortByValueDesc (feature_values f) := hperm.mem_iff.mpr hp
    have hqS : q ∈ sortByValueDesc (feature_values f) := hperm.mem_iff.mpr hq
    have hpT : p ∈ (sortByValueDesc (feature_values f)).take 3 :=
      mem_take_of_fst_mem _ 3 p hndS hpS hpin
    have hqT : q ∉ (sortByValueDesc (feature_values f)).take 3 := fun h =>
      hqout (List.mem_map_of_mem Prod.fst h)
    have hsplit : q ∈ (sortByValueDesc (feature_values f)).take 3 ++
        (sortByValueDesc (feature_values f)).drop 3 := by
      rw [List.take_append_drop]; exact hqS
    have hqD : q ∈ (sortByValueDesc (feature_values f)).drop 3 := by
      rcases List.mem_append.mp hsplit with h | h
      · exact absurd h hqT
      · exact h
    have hsorted := sorted_sortByValueDesc (feature_values f)
    have happ : ((sortByValueDesc (feature_values f)).take 3 ++
        (sortByValueDesc (feature_values f)).drop 3).Pairwise
          (fun x y => y.2 ≤ x.2) := by
      rw [List.take_append_drop]; exact hsorted
    exact (List.pairwise_append.mp happ).2.2 p hpT q hqD
  · intro p q hsub heq hqin
    rw [himp] at hqin ⊢
    have hAB : [p, q].Sublist (sortByValueDesc (feature_values f)) :=
      pair_sublist_sortByValueDesc p q (le_of_eq heq.symm) _ hsub
    have hqS : q ∈ sortByValueDesc (feature_values f) := hAB.subset (by simp)
    have hqT : q ∈ (sortByValueDesc (feature_values f)).take 3 :=
      mem_take_of_fst_mem _ 3 q hndS hqS hqin
    have hpT : p ∈ (sortByValueDesc (feature_values f)).take 3 :=
      mem_take_of_pair_sublist p q _ 3 hAB hnd hqT
    exact List.mem_map_of_mem Prod.fst hpT

/-- Helper: the important features at the feature vector (0, 3, 4, 0, 0, 0),
whose acc_y and acc_z contributions tie at 0.6. -/
theorem important_features_tie_eval :
    (detect_anomaly ⟨0, 3, 4, 0, 0, 0⟩ 1 false 0 0).important_features =
      ["acc_y", "acc_z", "acc_x"] := by
  norm_num [detect_anomaly, feature_values, sortByValueDesc, insertByValueDesc,
    FEATURE_IMPORTANCE_acc_x, FEATURE_IMPORTANCE_acc_y, FEATURE_IMPORTANCE_acc_z,
    FEATURE_IMPORTANCE_gyro_x, FEATURE_IMPORTANCE_gyro_y, FEATURE_IMPORTANCE_gyro_z]

/-- Helper: the acc_y and acc_z contributions of (0, 3, 4, 0, 0, 0) tie. -/
theorem contributions_tie_eval :
    |(3 : ℚ)| * FEATURE_IMPORTANCE_acc_y = |(4 : ℚ)| * FEATURE_IMPORTANCE_acc_z := by
  norm_num [FEATURE_IMPORTANCE_acc_y, FEATURE_IMPORTANCE_acc_z]

/-- Witness for `detect_anomaly_features` at the feature vector
(0, 3, 4, 0, 0, 0): three features are returned, the excluded gyro_x
contribution is bounded by the included acc_y one, and the tie between acc_y
and acc_z resolves in input order. -/
theorem detect_anomaly_features_witness :
    (detect_anomaly ⟨0, 3, 4, 0, 0, 0⟩ 1 false 0 0).important_features.length = 3 ∧
    |(0 : ℚ)| * FEATURE_IMPORTANCE_gyro_x * 10 ≤ |(3 : ℚ)| * FEATURE_IMPORTANCE_acc_y ∧
    "acc_y" ∈ (detect_anomaly ⟨0, 3, 4, 0, 0, 0⟩ 1 false 0 0).important_features := by
  have h := detect_anomaly_features ⟨0, 3, 4, 0, 0, 0⟩ 1 false 0 0
  refine ⟨h.2.1, ?_, ?_⟩
  · refine h.2.2.1 ("acc_y", |(3 : ℚ)| * FEATURE_IMPORTANCE_acc_y) ?_
      ("gyro_x", |(0 : ℚ)| * FEATURE_IMPORTANCE_gyro_x * 10) ?_ ?_ ?_
    · exact List.mem_cons_of_mem _ (List.mem_cons_self _ _)
    · exact List.mem_cons_of_mem _ (List.mem_cons_of_mem _
        (List.mem_cons_of_mem _ (List.mem_cons_self _ _)))
    · rw [important_features_tie_eval]; decide
    · rw [important_features_tie_eval]; decide
  · refine h.2.2.2 ("acc_y", |(3 : ℚ)| * FEATURE_IMPORTANCE_acc_y)
      ("acc_z", |(4 : ℚ)| * FEATURE_IMPORTANCE_acc_z) ?_ contributions_tie_eval ?_
    · exact List.Sublist.cons _ (List.Sublist.cons₂ _ (List.Sublist.cons₂ _
        (List.nil_sublist _)))
    · rw [important_features_tie_eval]; decide

/-- C1: a gate event carrying RFID tag "COW01" and weight 420 processed at
local hour 2 is dropped with the pipeline state unchanged: no direction is
assigned, the tag is not added to the OUT set, and nothing is appended to the
gate buffer, because `app.py` line 625 evaluates `timedelta`, which is never
imported, and the resulting NameError is swallowed by the handler at lines
695-696.  This refutes the claimed "out"/yesterday behaviour for hours in
[0, 5). -/
theorem gate_hour_two_drops_event :
    process_gate_data (fun _ => none) 0 2 "2026-01-01T02:00:00"
      "2026-01-01 02:00:00"
      { rfidTag := some "COW01", weight := some 420,
        timestamp := some "2026-01-01T02:00:00" } initState = initState ∧
    initState.unique_rfid_out = [] ∧
    initState.gate_data_buffer = [] ∧
    initState.emissions = [] :=
  ⟨rfl, rfl, rfl, rfl⟩

/-- C2: after the same hour-2 gate event with a non-empty tag and weight
420 > 0, the cattle registry still has no entry for "COW01": the missing
`timedelta` import aborts `process_gate_data` before the registry update at
`app.py` lines 644-666 is reached, refuting the claim for hours in [0, 5). -/
theorem gate_hour_two_registry_missing :
    lookupA
      (process_gate_data (fun _ => none) 0 2 "2026-01-01T02:00:00"
        "2026-01-01 02:00:00"
        { rfidTag := some "COW01", weight := some 420,
          timestamp := some "2026-01-01T02:00:00" } initState).cattle_registry
      "COW01" = none ∧
    (0 : ℚ) < 420 :=
  ⟨rfl, by decide⟩

/-- Helper: an element is a member after `setInsert`. -/
theorem mem_setInsert_self (l : List String) (x : String) : x ∈ setInsert l x := by
  unfold setInsert
  split
  case isTrue h => exact h
  case isFalse h => exact List.mem_append.mpr (Or.inr (List.mem_singleton.mpr rfl))

/-- Helper: `setInsert` of a member changes nothing. -/
theorem setInsert_eq_of_mem (l : List String) (x : String) (h : x ∈ l) :
    setInsert l x = l := if_pos h

/-- Helper: closed form of the morning branch of `process_gate_data` at hours
in [5, 16). -/
theorem process_gate_in_branch (parseIso : String → Option String) (today : ℤ)
    (h : ℕ) (nowIso nowFmt : String) (d : Doc) (s : PipelineState)
    (hh : 5 ≤ h ∧ h < 16) (hne : ¬(rfid_of d = "" ∨ pyStrip (rfid_of d) = "")) :
    process_gate_data parseIso today h nowIso nowFmt d s =
      gate_store_and_emit
        { s with
          unique_rfid_in :=
            setInsert (if s.last_date_in ≠ some today then [] else s.unique_rfid_in)
              (rfid_of d),
          last_date_in := some today }
        (rfid_of d) (formatted_time_of parseIso nowIso nowFmt d.timestamp)
        (gate_weight_of d) (gate_status_of d) "in" := by
  unfold process_gate_data
  rw [if_neg hne, if_pos hh]
  by_cases hdi : s.last_date_in = some today
  · rw [if_neg (fun hc => hc hdi), if_neg (fun hc => hc hdi), ← hdi]
  · rw [if_pos hdi, if_pos hdi]

/-- Helper: the IN set after the morning branch. -/
theorem process_gate_in_uin (parseIso : String → Option String) (today : ℤ)
    (h : ℕ) (nowIso nowFmt : String) (d : Doc) (s : PipelineState)
    (hh : 5 ≤ h ∧ h < 16) (hne : ¬(rfid_of d = "" ∨ pyStrip (rfid_of d) = "")) :
    (process_gate_data parseIso today h nowIso nowFmt d s).unique_rfid_in =
      setInsert (if s.last_date_in ≠ some today then [] else s.unique_rfid_in)
        (rfid_of d) := by
  rw [process_gate_in_branch parseIso today h nowIso nowFmt d s hh hne]
  rfl

/-- Helper: the IN session date after the morning branch. -/
theorem process_gate_in_ldi (parseIso : String → Option String) (today : ℤ)
    (h : ℕ) (nowIso nowFmt : String) (d : Doc) (s : PipelineState)
    (hh : 5 ≤ h ∧ h < 16) (hne : ¬(rfid_of d = "" ∨ pyStrip (rfid_of d) = "")) :
    (process_gate_data parseIso today h nowIso nowFmt d s).last_date_in =
      some today := by
  rw [process_gate_in_branch parseIso today h nowIso nowFmt d s hh hne]
  rfl

/-- Helper: the morning branch emits exactly one gate update with direction
"in". -/
theorem process_gate_in_emissions (parseIso : String → Option String) (today : ℤ)
    (h : ℕ) (nowIso nowFmt : String) (d : Doc) (s : PipelineState)
    (hh : 5 ≤ h ∧ h < 16) (hne : ¬(rfid_of d = "" ∨ pyStrip (rfid_of d) = "")) :
    ∃ gd reg,
      (process_gate_data parseIso today h nowIso nowFmt d s).emissions =
        s.emissions ++ [Emission.gate_update gd reg] ∧ gd.direction = "in" := by
  rw [process_gate_in_branch parseIso today h nowIso nowFmt d s hh hne]
  exact ⟨_, _, rfl, rfl⟩

/-- C6: two gate events with the same non-empty tag and positive weight, both
processed at local hours in [5, 16) on the same calendar date, are both
classified "in", and the unique IN set (hence its size) is unchanged by the
second event: re-scanning the same tag within a session does not change the
unique count. -/
theorem gate_same_morning_session (parseIso : String → Option String)
    (today : ℤ) (h1 h2 : ℕ) (nowIso1 nowFmt1 nowIso2 nowFmt2 : String)
    (d1 d2 : Doc) (s : PipelineState)
    (hh1 : 5 ≤ h1 ∧ h1 < 16) (hh2 : 5 ≤ h2 ∧ h2 < 16)
    (hr : rfid_of d1 = rfid_of d2)
    (hne : ¬(rfid_of d1 = "" ∨ pyStrip (rfid_of d1) = ""))
    (hw1 : 0 < gate_weight_of d1) (hw2 : 0 < gate_weight_of d2) :
    (∃ gd1 reg1,
      (process_gate_data parseIso today h1 nowIso1 nowFmt1 d1 s).emissions =
        s.emissions ++ [Emission.gate_update gd1 reg1] ∧ gd1.direction = "in") ∧
    (∃ gd2 reg2,
      (process_gate_data parseIso today h2 nowIso2 nowFmt2 d2
          (process_gate_data parseIso today h1 nowIso1 nowFmt1 d1 s)).emissions =
        (process_gate_data parseIso today h1 nowIso1 nowFmt1 d1 s).emissions ++
          [Emission.gate_update gd2 reg2] ∧ gd2.direction = "in") ∧
    (process_gate_data parseIso today h2 nowIso2 nowFmt2 d2
        (process_gate_data parseIso today h1 nowIso1 nowFmt1 d1 s)).unique_rfid_in =
      (process_gate_data parseIso today h1 nowIso1 nowFmt1 d1 s).unique_rfid_in ∧
    (process_gate_data parseIso today h2 nowIso2 nowFmt2 d2
        (process_gate_data parseIso today h1 nowIso1 nowFmt1 d1 s)).unique_rfid_in.length =
      (process_gate_data parseIso today h1 nowIso1 nowFmt1 d1 s).unique_rfid_in.length := by
  have hne2 : ¬(rfid_of d2 = "" ∨ pyStrip (rfid_of d2) = "") := by
    rw [← hr]; exact hne
  have e1 := process_gate_in_emissions parseIso today h1 nowIso1 nowFmt1 d1 s hh1 hne
  have e2 := process_gate_in_emissions parseIso today h2 nowIso2 nowFmt2 d2
    (process_gate_data parseIso today h1 nowIso1 nowFmt1 d1 s) hh2 hne2
  have u1 := process_gate_in_uin parseIso today h1 nowIso1 nowFmt1 d1 s hh1 hne
  have l1 := process_gate_in_ldi parseIso today h1 nowIso1 nowFmt1 d1 s hh1 hne
  have u2 := process_gate_in_uin parseIso today h2 nowIso2 nowFmt2 d2
    (process_gate_data parseIso today h1 nowIso1 nowFmt1 d1 s) hh2 hne2
  rw [l1, if_neg (fun hc => hc rfl), ← hr, u1,
    setInsert_eq_of_mem _ _ (mem_setInsert_self _ _), ← u1] at u2
  exact ⟨e1, e2, u2, by rw [u2]⟩

/-- Witness for `gate_same_morning_session`: tag "COW01", weight 420, hours 8
and 9 of the same day, starting from the initial state. -/
theorem gate_same_morning_session_witness :
    (process_gate_data (fun _ => none) 0 9 "t2" "f2"
        { rfidTag := some "COW01", weight := some 420 }
        (process_gate_data (fun _ => none) 0 8 "t1" "f1"
          { rfidTag := some "COW01", weight := some 420 }
          initState)).unique_rfid_in =
      (process_gate_data (fun _ => none) 0 8 "t1" "f1"
        { rfidTag := some "COW01", weight := some 420 }
        initState).unique_rfid_in ∧
    (process_gate_data (fun _ => none) 0 9 "t2" "f2"
        { rfidTag := some "COW01", weight := some 420 }
        (process_gate_data (fun _ => none) 0 8 "t1" "f1"
          { rfidTag := some "COW01", weight := some 420 }
          initState)).unique_rfid_in.length =
      (process_gate_data (fun _ => none) 0 8 "t1" "f1"
        { rfidTag := some "COW01", weight := some 420 }
        initState).unique_rfid_in.length := by
  have h := gate_same_morning_session (fun _ => none) 0 8 9 "t1" "f1" "t2" "f2"
    { rfidTag := some "COW01", weight := some 420 }
    { rfidTag := some "COW01", weight := some 420 } initState
    (by decide) (by decide) rfl (by decide) (by decide) (by decide)
  exact ⟨h.2.2.1, h.2.2.2⟩

/-- Helper: closed form of `process_feed_monitor_data` on a fresh, valid,
single-cattle (format 1) payload. -/
theorem process_feed_format1 (topic nowIso nowFmt : String) (d : Doc)
    (s : PipelineState)
    (hstat : d.status ≠ some "no_cattle_detected")
    (hval : (feed_is_invalid_id d || feed_is_unknown_without_feed d) = false)
    (hfresh : feed_message_key topic nowIso d ∉ s.processed_messages)
    (hfmt : (d.cattleID.isSome || d.cattle_id.isSome || d.cattleName.isSome) = true) :
    process_feed_monitor_data topic nowIso nowFmt d s =
      feed_store_and_emit
        { s with processed_messages :=
            if MAX_MESSAGE_HISTORY <
                (s.processed_messages ++ [feed_message_key topic nowIso d]).length
            then [feed_message_key topic nowIso d]
            else s.processed_messages ++ [feed_message_key topic nowIso d] }
        (feed_format1_record nowFmt d) := by
  simp only [process_feed_monitor_data]
  rw [if_neg hstat, if_neg (by rw [hval]; exact Bool.false_ne_true),
    if_neg hfresh, if_pos hfmt]

/-- Helper: after admission, the deduplication key is in the stored set
whether or not the overflow reseed fired. -/
theorem feed_key_mem_after (pm : List (String × String × String))
    (key : String × String × String) :
    key ∈ (if MAX_MESSAGE_HISTORY < (pm ++ [key]).length then [key]
           else pm ++ [key]) := by
  split
  · exact List.mem_singleton.mpr rfl
  · exact List.mem_append.mpr (Or.inr (List.mem_singleton.mpr rfl))

/-- C5: two feed messages with identical (topic, timestamp, identifier), both
passing the validity filter, the first one fresh in the deduplication set,
produce exactly one feed-buffer append, one latest-snapshot update and one
fan-out emission in total: the second message is dropped silently before any
mutation. -/
theorem feed_duplicate_dropped (topic nowIso1 nowFmt1 nowIso2 nowFmt2 : String)
    (d : Doc) (s : PipelineState)
    (hstat : d.status ≠ some "no_cattle_detected")
    (hval : (feed_is_invalid_id d || feed_is_unknown_without_feed d) = false)
    (hfresh : feed_message_key topic nowIso1 d ∉ s.processed_messages)
    (hts : d.timestamp.isSome = true)
    (hfmt : (d.cattleID.isSome || d.cattle_id.isSome || d.cattleName.isSome) = true) :
    process_feed_monitor_data topic nowIso2 nowFmt2 d
        (process_feed_monitor_data topic nowIso1 nowFmt1 d s) =
      process_feed_monitor_data topic nowIso1 nowFmt1 d s ∧
    (process_feed_monitor_data topic nowIso1 nowFmt1 d s).feed_monitor_buffer =
      dequeAppend feed_monitor_buffer_maxlen s.feed_monitor_buffer
        (feed_format1_record nowFmt1 d) ∧
    (process_feed_monitor_data topic nowIso1 nowFmt1 d s).latest_feed_data =
      some (feed_format1_record nowFmt1 d) ∧
    (process_feed_monitor_data topic nowIso1 nowFmt1 d s).emissions =
      s.emissions ++ [Emission.feed_monitor_update (feed_format1_record nowFmt1 d)] := by
  have hkey : feed_message_key topic nowIso2 d = feed_message_key topic nowIso1 d := by
    obtain ⟨t, ht⟩ := Option.isSome_iff_exists.mp hts
    unfold feed_message_key
    rw [ht]
    rfl
  rw [process_feed_format1 topic nowIso1 nowFmt1 d s hstat hval hfresh hfmt]
  refine ⟨?_, rfl, rfl, rfl⟩
  have hmem : feed_message_key topic nowIso2 d ∈
      (feed_store_and_emit
        { s with processed_messages :=
            if MAX_MESSAGE_HISTORY <
                (s.processed_messages ++ [feed_message_key topic nowIso1 d]).length
            then [feed_message_key topic nowIso1 d]
            else s.processed_messages ++ [feed_message_key topic nowIso1 d] }
        (feed_format1_record nowFmt1 d)).processed_messages := by
    rw [hkey]
    exact feed_key_mem_after s.processed_messages (feed_message_key topic nowIso1 d)
  simp only [process_feed_monitor_data]
  rw [if_neg hstat, if_neg (by rw [hval]; exact Bool.false_ne_true), if_pos hmem]

/-- Witness for `feed_duplicate_dropped`: a valid single-cattle feed message
with identifier "COW01", feed 2 kg and a payload timestamp, processed twice
from the initial state. -/
theorem feed_duplicate_dropped_witness :
    process_feed_monitor_data "farm/feed_monitor" "n2" "f2"
        { cattleID := some "COW01", feedConsumed := some 2,
          timestamp := some "ts1" }
        (process_feed_monitor_data "farm/feed_monitor" "n1" "f1"
          { cattleID := some "COW01", feedConsumed := some 2,
            timestamp := some "ts1" } initState) =
      process_feed_monitor_data "farm/feed_monitor" "n1" "f1"
        { cattleID := some "COW01", feedConsumed := some 2,
          timestamp := some "ts1" } initState ∧
    (process_feed_monitor_data "farm/feed_monitor" "n1" "f1"
        { cattleID := some "COW01", feedConsumed := some 2,
          timestamp := some "ts1" } initState).emissions =
      initState.emissions ++
        [Emission.feed_monitor_update
          (feed_format1_record "f1"
            { cattleID := some "COW01", feedConsumed := some 2,
              timestamp := some "ts1" })] := by
  have h := feed_duplicate_dropped "farm/feed_monitor" "n1" "f1" "n2" "f2"
    { cattleID := some "COW01", feedConsumed := some 2, timestamp := some "ts1" }
    initState (by decide) (by decide) (by decide) (by decide) (by decide)
  exact ⟨h.1, h.2.2.2⟩

/-- Helper: the deduplication set after a feed message is either untouched or
the admitted set with the overflow reseed applied. -/
theorem feed_processed_cases (topic nowIso nowFmt : String) (d : Doc)
    (s : PipelineState) :
    (process_feed_monitor_data topic nowIso nowFmt d s).processed_messages =
      s.processed_messages ∨
    (process_feed_monitor_data topic nowIso nowFmt d s).processed_messages =
      (if MAX_MESSAGE_HISTORY <
          (s.processed_messages ++ [feed_message_key topic nowIso d]).length
       then [feed_message_key topic nowIso d]
       else s.processed_messages ++ [feed_message_key topic nowIso d]) := by
  by_cases h1 : d.status = some "no_cattle_detected"
  · left
    simp only [process_feed_monitor_data]
    rw [if_pos h1]
  · by_cases h2 : (feed_is_invalid_id d || feed_is_unknown_without_feed d) = true
    · left
      simp only [process_feed_monitor_data]
      rw [if_neg h1, if_pos h2]
    · by_cases h3 : feed_message_key topic nowIso d ∈ s.processed_messages
      · left
        simp only [process_feed_monitor_data]
        rw [if_neg h1, if_neg h2, if_pos h3]
      · right
        simp only [process_feed_monitor_data]
        rw [if_neg h1, if_neg h2, if_neg h3]
        split_ifs <;> rfl

/-- C8: the deduplication set never exceeds 500 keys after a feed message is
processed, and whenever admitting a fresh key would push it past 500, the set
is cleared and reseeded with only the newly-admitted key. -/
theorem feed_dedup_bound (topic nowIso nowFmt : String) (d : Doc)
    (s : PipelineState)
    (hlen : s.processed_messages.length ≤ MAX_MESSAGE_HISTORY) :
    (process_feed_monitor_data topic nowIso nowFmt d s).processed_messages.length ≤
      MAX_MESSAGE_HISTORY ∧
    (s.processed_messages.length = MAX_MESSAGE_HISTORY →
      feed_message_key topic nowIso d ∉ s.processed_messages →
      d.status ≠ some "no_cattle_detected" →
      (feed_is_invalid_id d || feed_is_unknown_without_feed d) = false →
      (process_feed_monitor_data topic nowIso nowFmt d s).processed_messages =
        [feed_message_key topic nowIso d]) := by
  constructor
  · rcases feed_processed_cases topic nowIso nowFmt d s with h | h
    · rw [h]; exact hlen
    · rw [h]
      split
      · rw [List.length_singleton]
        unfold MAX_MESSAGE_HISTORY
        omega
      · case isFalse hnb =>
          rw [List.length_append, List.length_singleton] at hnb ⊢
          omega
  · intro h500 hfresh hstat hval
    simp only [process_feed_monitor_data]
    rw [if_neg hstat, if_neg (by rw [hval]; exact Bool.false_ne_true),
      if_neg hfresh]
    have hov : MAX_MESSAGE_HISTORY <
        (s.processed_messages ++ [feed_message_key topic nowIso d]).length := by
      rw [List.length_append, List.length_singleton, h500]
      exact Nat.lt_succ_self _
    rw [if_pos hov]
    split_ifs <;> rfl

set_option maxRecDepth 100000 in
/-- Witness for `feed_dedup_bound`: a set already holding 500 keys overflows
on a fresh valid message and is reseeded with exactly that message's key. -/
theorem feed_dedup_bound_witness :
    (process_feed_monitor_data "farm/feed_monitor" "n1" "f1"
        { cattleID := some "COW01", feedConsumed := some 2,
          timestamp := some "ts1" }
        { processed_messages := List.replicate 500 ("t", "t", "t") }).processed_messages =
      [("farm/feed_monitor", "ts1", "COW01")] ∧
    (List.replicate 500 (("t", "t", "t") : String × String × String)).length ≤
      MAX_MESSAGE_HISTORY := by
  have h := feed_dedup_bound "farm/feed_monitor" "n1" "f1"
    { cattleID := some "COW01", feedConsumed := some 2, timestamp := some "ts1" }
    { processed_messages := List.replicate 500 ("t", "t", "t") }
    (by decide)
  exact ⟨h.2 (by decide) (by decide) (by decide) (by decide), by decide⟩

/-- Helper: one bounded append never exceeds the capacity. -/
theorem dequeAppend_length_le {α : Type} (cap : ℕ) (hc : 0 < cap) (b : List α)
    (x : α) (hb : b.length ≤ cap) : (dequeAppend cap b x).length ≤ cap := by
  unfold dequeAppend
  split
  case isTrue h =>
    cases b with
    | nil => simp at h ⊢; omega
    | cons y t => simp at hb ⊢; omega
  case isFalse h => simp at h ⊢; omega

/-- Helper: any sequence of bounded appends keeps the length within the
capacity. -/
theorem foldl_dequeAppend_length_le {α : Type} (cap : ℕ) (hc : 0 < cap) :
    ∀ (xs b : List α), b.length ≤ cap →
      (xs.foldl (dequeAppend cap) b).length ≤ cap
  | [], _, hb => hb
  | x :: xs, b, hb =>
      foldl_dequeAppend_length_le cap hc xs (dequeAppend cap b x)
        (dequeAppend_length_le cap hc b x hb)

/-- Helper: appending one element past the capacity evicts exactly the oldest
entry. -/
theorem foldl_dequeAppend_evict {α : Type} (cap : ℕ) :
    ∀ (xs b : List α), b.length + xs.length = cap + 1 → 1 ≤ b.length →
      b.length ≤ cap → xs.foldl (dequeAppend cap) b = b.drop 1 ++ xs
  | [], b, htot, _, hbc => by
      simp at htot
      exact absurd htot (by omega)
  | x :: xs, b, htot, hb1, hbc => by
      by_cases hfull : cap ≤ b.length
      · have hxs : xs = [] := by
          rw [List.length_cons] at htot
          exact List.length_eq_zero.mp (by omega)
        subst hxs
        show List.foldl (dequeAppend cap) (dequeAppend cap b x) [] = b.drop 1 ++ [x]
        rw [List.foldl_nil]
        unfold dequeAppend
        rw [if_pos hfull, List.drop_one]
      · show List.foldl (dequeAppend cap) (dequeAppend cap b x) xs =
          b.drop 1 ++ x :: xs
        rw [show dequeAppend cap b x = b ++ [x] from if_neg hfull]
        rw [foldl_dequeAppend_evict cap xs (b ++ [x])
          (by rw [List.length_append, List.length_singleton]
              rw [List.length_cons] at htot
              omega)
          (by rw [List.length_append]; omega)
          (by rw [List.length_append, List.length_singleton]; omega)]
        rw [List.drop_append_of_le_length hb1, List.append_assoc]
        rfl

/-- C7: the four stream ring buffers carry their fixed capacities — sensor
100, environmental 50, gate 200, feed 100 — a buffer's length never exceeds
its capacity under any append sequence, and after capacity+1 appends into an
empty buffer the first-appended entry is absent (when not re-appended) and
the length equals the capacity. -/
theorem ring_buffer_bounds :
    cattle_data_buffer_maxlen = 100 ∧ environmental_data_buffer_maxlen = 50 ∧
    gate_data_buffer_maxlen = 200 ∧ feed_monitor_buffer_maxlen = 100 ∧
    (∀ (α : Type) (cap : ℕ), 0 < cap → ∀ (xs b : List α), b.length ≤ cap →
      (xs.foldl (dequeAppend cap) b).length ≤ cap) ∧
    (∀ (α : Type) (cap : ℕ), 0 < cap → ∀ (x : α) (xs : List α),
      xs.length = cap →
      List.foldl (dequeAppend cap) [] (x :: xs) = xs ∧
      (x ∉ xs → x ∉ List.foldl (dequeAppend cap) [] (x :: xs)) ∧
      (List.foldl (dequeAppend cap) [] (x :: xs)).length = cap) := by
  refine ⟨rfl, rfl, rfl, rfl, ?_, ?_⟩
  · intro α cap hc xs b hb
    exact foldl_dequeAppend_length_le cap hc xs b hb
  · intro α cap hc x xs hlen
    have hstep : List.foldl (dequeAppend cap) [] (x :: xs) = xs := by
      show List.foldl _ (dequeAppend cap [] x) xs = xs
      rw [show dequeAppend cap [] x = [x] from
        if_neg (fun hcon => by simp at hcon; omega)]
      rw [foldl_dequeAppend_evict cap xs [x]
        (by rw [List.length_singleton, hlen]; omega)
        (by rw [List.length_singleton])
        (by rw [List.length_singleton]; omega)]
      rfl
    exact ⟨hstep, fun hx => by rw [hstep]; exact hx, by rw [hstep, hlen]⟩

/-- Witness for `ring_buffer_bounds` at the environmental capacity 50: after
51 appends of distinct entries into an empty buffer, the first entry is gone
and the length is 50. -/
theorem ring_buffer_bounds_witness :
    List.foldl (dequeAppend 50) [] (50 :: List.range 50) = List.range 50 ∧
    50 ∉ List.foldl (dequeAppend 50) [] (50 :: List.range 50) ∧
    (List.foldl (dequeAppend 50) [] (50 :: List.range 50)).length = 50 := by
  have h := ring_buffer_bounds.2.2.2.2.2 ℕ 50 (by decide) 50 (List.range 50)
    (by decide)
  exact ⟨h.1, h.2.1 (by decide), h.2.2⟩

/-- C9: a message whose payload is not parseable JSON is dropped before any
dispatch, and a gate-topic message whose RFID tag is absent or
whitespace-only is dropped by `process_gate_data` — in both cases every part
of the pipeline state is unchanged and no fan-out emission occurs, no matter
what the abstracted sensor, environmental and health processors would do. -/
theorem malformed_message_dropped (parseIso : String → Option String)
    (today : ℤ) (hour : ℕ) (nowIso nowFmt : String)
    (ps pe ph : PipelineState → Doc → String → PipelineState)
    (topic : String) (s : PipelineState) (d : Doc) :
    on_message parseIso today hour nowIso nowFmt ps pe ph topic none s = s ∧
    ((rfid_of d = "" ∨ pyStrip (rfid_of d) = "") →
      on_message parseIso today hour nowIso nowFmt ps pe ph "farm/gate"
        (some d) s = s) := by
  constructor
  · rfl
  · intro h
    simp only [on_message]
    rw [if_neg (by decide), if_pos trivial]
    simp only [process_gate_data]
    rw [if_pos h]

/-- Witness for `malformed_message_dropped`: an unparseable payload and a
gate message whose tag is three spaces, from the initial state. -/
theorem malformed_message_dropped_witness :
    on_message (fun _ => none) 0 10 "n" "f" (fun s _ _ => s) (fun s _ _ => s)
      (fun s _ _ => s) "farm/gate" none initState = initState ∧
    on_message (fun _ => none) 0 10 "n" "f" (fun s _ _ => s) (fun s _ _ => s)
      (fun s _ _ => s) "farm/gate" (some { rfidTag := some "   " }) initState =
      initState := by
  have h := malformed_message_dropped (fun _ => none) 0 10 "n" "f"
    (fun s _ _ => s) (fun s _ _ => s) (fun s _ _ => s) "farm/gate" initState
    { rfidTag := some "   " }
  exact ⟨h.1, h.2 (Or.inr (by decide))⟩

/-- Helper: looking up in a dict after an assignment. -/
theorem lookupA_setEntry {β : Type} (v : β) (l : List (String × β))
    (k k2 : String) :
    lookupA (setEntry l k v) k2 = if k = k2 then some v else lookupA l k2 := by
  induction l with
  | nil => simp only [setEntry, lookupA]
  | cons p t ih =>
      obtain ⟨k0, v0⟩ := p
      simp only [setEntry]
      by_cases h : k0 = k
      · rw [if_pos h]
        subst h
        simp only [lookupA]
        by_cases h2 : k0 = k2
        · rw [if_pos h2, if_pos h2]
        · rw [if_neg h2, if_neg h2, if_neg h2]
      · rw [if_neg h]
        simp only [lookupA, ih]
        by_cases h2 : k0 = k2
        · have hk : ¬ k = k2 := fun hc => h (h2.trans hc.symm)
          rw [if_pos h2, if_neg hk, if_pos h2]
        · rw [if_neg h2, if_neg h2]

/-- Helper: the registry update of a gate event preserves all-zero lifetime
counters: fresh entries are created with zeros and refreshed entries keep
their stored counters. -/
theorem gate_registry_update_counters (reg : List (String × CattleProfile))
    (r : String) (w : ℚ) (fmt : String)
    (hz : ∀ k p, lookupA reg k = some p →
      p.total_entries = 0 ∧ p.total_exits = 0) :
    ∀ k p, lookupA (gate_registry_update reg r w fmt) k = some p →
      p.total_entries = 0 ∧ p.total_exits = 0 := by
  intro k p hp
  simp only [gate_registry_update] at hp
  by_cases hcond : (r ≠ "" ∧ pyStrip r ≠ "" ∧ 0 < w)
  · rw [if_pos hcond, lookupA_setEntry] at hp
    by_cases heq : r = k
    · rw [if_pos heq] at hp
      cases hlr : lookupA reg r with
      | none =>
          rw [hlr] at hp
          rw [Option.some_inj] at hp
          rw [← hp]
          exact ⟨rfl, rfl⟩
      | some q =>
          rw [hlr] at hp
          rw [Option.some_inj] at hp
          rw [← hp]
          exact hz r q hlr
    · rw [if_neg heq] at hp
      exact hz k p hp
  · rw [if_neg hcond] at hp
    exact hz k p hp

/-- Helper: processing one gate event preserves all-zero lifetime counters in
the registry. -/
theorem process_gate_counters_zero (parseIso : String → Option String)
    (today : ℤ) (hour : ℕ) (nowIso nowFmt : String) (d : Doc)
    (s : PipelineState)
    (hz : ∀ k p, lookupA s.cattle_registry k = some p →
      p.total_entries = 0 ∧ p.total_exits = 0) :
    ∀ k p,
      lookupA (process_gate_data parseIso today hour nowIso nowFmt d
        s).cattle_registry k = some p →
      p.total_entries = 0 ∧ p.total_exits = 0 := by
  intro k p hp
  simp only [process_gate_data] at hp
  split_ifs at hp
  all_goals first
    | exact hz k p hp
    | exact gate_registry_update_counters _ _ _ _ hz k p hp

/-- Helper: the invariant holds across any fold of gate events. -/
theorem foldl_gate_counters_zero (parseIso : String → Option String) :
    ∀ (evs : List (ℤ × ℕ × String × String × Doc)) (s : PipelineState),
      (∀ k p, lookupA s.cattle_registry k = some p →
        p.total_entries = 0 ∧ p.total_exits = 0) →
      ∀ k p,
        lookupA
          (evs.foldl
            (fun st e =>
              process_gate_data parseIso e.1 e.2.1 e.2.2.1 e.2.2.2.1 e.2.2.2.2 st)
            s).cattle_registry k = some p →
        p.total_entries = 0 ∧ p.total_exits = 0
  | [], _, hz => hz
  | e :: t, s, hz =>
      foldl_gate_counters_zero parseIso t
        (process_gate_data parseIso e.1 e.2.1 e.2.2.1 e.2.2.2.1 e.2.2.2.2 s)
        (process_gate_counters_zero parseIso e.1 e.2.1 e.2.2.1 e.2.2.2.1
          e.2.2.2.2 s hz)

/-- C10 counterexample: a single gate event with tag "COW01" and weight 420
at hour 10 is classified "in", yet the registry entry's `total_entries` stays
0 rather than 1 — the lifetime counters are initialized at `app.py` lines
653-654 and never incremented anywhere. -/
theorem registry_counters_cex :
    (process_gate_data (fun _ => none) 0 10 "t" "f"
        { rfidTag := some "COW01", weight := some 420 }
        initState).gate_data_buffer.map (fun gd => gd.direction) = ["in"] ∧
    (lookupA (process_gate_data (fun _ => none) 0 10 "t" "f"
        { rfidTag := some "COW01", weight := some 420 }
        initState).cattle_registry "COW01").map
      (fun p => (p.total_entries, p.total_exits)) = some (0, 0) ∧
    ((0, 0) : ℕ × ℕ) ≠ (1, 0) := by
  decide

/-- C10 (amended): every registry entry's lifetime counters are created as
zero and never modified: after any sequence of gate events processed from a
state whose registry entries all carry zero counters, every registry entry
still has `total_entries = 0` and `total_exits = 0`. -/
theorem registry_counters_stay_zero (parseIso : String → Option String)
    (evs : List (ℤ × ℕ × String × String × Doc)) (s : PipelineState)
    (hz : ∀ k p, lookupA s.cattle_registry k = some p →
      p.total_entries = 0 ∧ p.total_exits = 0)
    (k : String) (p : CattleProfile)
    (hp : lookupA
        (evs.foldl
          (fun st e =>
            process_gate_data parseIso e.1 e.2.1 e.2.2.1 e.2.2.2.1 e.2.2.2.2 st)
          s).cattle_registry k = some p) :
    p.total_entries = 0 ∧ p.total_exits = 0 :=
  foldl_gate_counters_zero parseIso evs s hz k p hp

/-- Witness for `registry_counters_stay_zero`: the profile of "COW01" after
one gate event at hour 10 from the initial state. -/
theorem registry_counters_stay_zero_witness :
    (CattleProfile.mk "COW01" 420 [(420, "f")] "f" "f" 0 0).total_entries = 0 ∧
    (CattleProfile.mk "COW01" 420 [(420, "f")] "f" "f" 0 0).total_exits = 0 :=
  registry_counters_stay_zero (fun _ => none)
    [(0, 10, "t", "f", { rfidTag := some "COW01", weight := some 420 })]
    initState (fun _ _ h => Option.noConfusion h) "COW01"
    (CattleProfile.mk "COW01" 420 [(420, "f")] "f" "f" 0 0) (by decide)

end CattleNet
